import Mathlib

/-!
Verification development for the CSV-to-Postgres ingestion pipeline in
src/index.js.

The JavaScript value universe is embedded shallowly: strings, numbers
(integers, since the only numeric producer is parseInt with radix 10),
the NaN sentinel, undefined, null, and objects as ordered association
lists (JS objects preserve insertion order for string keys; an update of
an existing key keeps its position, a new key is appended).
-/

set_option autoImplicit false

/-- A JavaScript value as used by the pipeline. -/
inductive JsVal where
  | vStr : String → JsVal
  | vNum : Int → JsVal
  | vNaN : JsVal
  | vUndefined : JsVal
  | vNull : JsVal
  | vObj : List (String × JsVal) → JsVal
deriving Repr

/-- A JavaScript object: ordered association list of own enumerable keys. -/
abbrev JsObj := List (String × JsVal)

/-- JavaScript truthiness of the embedded values. -/
def truthy : JsVal → Bool
  | .vStr s => !(s == "")
  | .vNum n => !(n == 0)
  | .vNaN => false
  | .vUndefined => false
  | .vNull => false
  | .vObj _ => true

/-- JavaScript string coercion (template literals, parseInt argument). -/
def jsToString : JsVal → String
  | .vStr s => s
  | .vNum n => toString n
  | .vNaN => "NaN"
  | .vUndefined => "undefined"
  | .vNull => "null"
  | .vObj _ => "[object Object]"

/-- The value of `v === ''` for an embedded value. -/
def isEmptyStr : JsVal → Bool
  | .vStr s => s == ""
  | _ => false

/-- JS String.prototype.split with separator ".": every dot starts a new
segment, empty segments preserved, and the empty string splits to one
empty segment. -/
def splitCharsOnDot : List Char → List String
  | [] => [""]
  | c :: rest =>
      if c = '.' then "" :: splitCharsOnDot rest
      else
        match splitCharsOnDot rest with
        | [] => [String.mk [c]]
        | s :: ss => String.mk (c :: s.data) :: ss

/-- path.split on the dot character, as a function on strings. -/
def splitOnDot (s : String) : List String :=
  splitCharsOnDot s.data

/-- JS String.prototype.trim on a character list: drop whitespace from
both ends. -/
def trimChars (cs : List Char) : List Char :=
  ((cs.dropWhile (fun c => c.isWhitespace)).reverse.dropWhile (fun c => c.isWhitespace)).reverse

/-- JS String.prototype.trim. -/
def trimStr (s : String) : String :=
  String.mk (trimChars s.data)

/-- Numeric value of the leading decimal-digit run of a character list. -/
def leadingDigitsVal (cs : List Char) : Nat :=
  (cs.takeWhile (fun c => c.isDigit)).foldl (fun a c => a * 10 + (c.toNat - 48)) 0

/-- Whether the character list starts with no decimal digit at all. -/
def noLeadingDigit (cs : List Char) : Bool :=
  (cs.takeWhile (fun c => c.isDigit)).isEmpty

/-- JavaScript parseInt(s, 10): skip leading whitespace, optional sign,
longest digit run; NaN when no digit follows. -/
def parseInt10 (s : String) : JsVal :=
  let cs := s.data.dropWhile (fun c => c.isWhitespace)
  match cs with
  | '-' :: rest => if noLeadingDigit rest then .vNaN else .vNum (-(leadingDigitsVal rest : Int))
  | '+' :: rest => if noLeadingDigit rest then .vNaN else .vNum (leadingDigitsVal rest : Int)
  | _ => if noLeadingDigit cs then .vNaN else .vNum (leadingDigitsVal cs : Int)

/-- Property read `o[k]`: first entry with the key, else undefined. -/
def objGet (o : JsObj) (k : String) : JsVal :=
  match o.find? (fun p => p.1 == k) with
  | some p => p.2
  | none => .vUndefined

/-- Property write `o[k] = v`: update in place when the key exists
(keeping its position), otherwise append. -/
def objSet (o : JsObj) (k : String) (v : JsVal) : JsObj :=
  if o.any (fun p => p.1 == k) then o.map (fun p => if p.1 == k then (k, v) else p)
  else o ++ [(k, v)]

/-- The TypeError a sloppy-mode property access on undefined throws
(cannot read or set properties of undefined). -/
inductive JsError where
  | typeError : JsError
deriving Repr, DecidableEq

/-- The pointer walk of setNestedProperty over the split path. For each
intermediate key: a falsy current value is replaced by a fresh empty
object (JS `if (!current[key]) current[key] = \x7b\x7d`), after which every
deeper node is a fresh object too, so no error can follow a creation; a
truthy object is walked into; a truthy primitive is walked into, its
generic-key property reads yielding undefined and its property writes
being silent no-ops (sloppy mode), so with exactly one write remaining
the assignment is silently dropped (record unchanged), while with two
or more segments remaining the walk reaches undefined and the next
property access throws a TypeError. A truthy primitive can only be met
before any creation, so a throwing call leaves the record unchanged. -/
def walkSet (obj : JsObj) (keys : List String) (v : JsVal) : Except JsError JsObj :=
  match keys with
  | [] => .ok obj
  | [last] => .ok (objSet obj last v)
  | k :: k2 :: rest =>
      match objGet obj k with
      | .vObj o => (walkSet o (k2 :: rest) v).map (fun o2 => objSet obj k (.vObj o2))
      | w =>
          if truthy w then
            match rest with
            | [] => .ok obj
            | _ :: _ => .error .typeError
          else (walkSet [] (k2 :: rest) v).map (fun o2 => objSet obj k (.vObj o2))

/-- setNestedProperty(obj, path, value) from src/index.js: return
unchanged on the empty string; split the path on dots; walk/create
intermediate nodes (which may throw a TypeError, see walkSet); at the
last key store parseInt(value, 10) when the whole path is the reserved
path age and the value is truthy, else the value itself. -/
def setNestedProperty (obj : JsObj) (path : String) (value : JsVal) : Except JsError JsObj :=
  if isEmptyStr value then .ok obj
  else
    walkSet obj (splitOnDot path)
      (if path == "age" && truthy value then parseInt10 (jsToString value) else value)

/-- The fixed relational row shape produced by transformForDb. -/
structure TargetRecord where
  name : String
  age : JsVal
  address : JsVal
  additional_info : JsVal
deriving Repr

/-- Optional chaining property read `v?.k`: undefined on every
non-object (including primitives, whose firstName/lastName access yields
undefined), else the property. -/
def optChain (v : JsVal) (k : String) : JsVal :=
  match v with
  | .vObj o => objGet o k
  | _ => .vUndefined

/-- The template-literal piece `x || ''` rendered to a string. -/
def orEmptyStr (v : JsVal) : String :=
  if truthy v then jsToString v else ""

/-- transformForDb(obj) from src/index.js: destructure name, age,
address; the rest-spread object (always an object, possibly empty)
becomes additional_info; compose the name from firstName/lastName with
a single space and trim; default falsy age to 0 and falsy address to
null; apply the (dead, since objects are truthy) `|| null` fallback to
additional_info. -/
def transformForDb (obj : JsObj) : TargetRecord :=
  let name := objGet obj "name"
  let age := objGet obj "age"
  let address := objGet obj "address"
  let rest : JsVal :=
    .vObj (obj.filter (fun p => !(p.1 == "name" || p.1 == "age" || p.1 == "address")))
  { name := trimStr (orEmptyStr (optChain name "firstName") ++ " " ++ orEmptyStr (optChain name "lastName"))
    age := if truthy age then age else .vNum 0
    address := if truthy address then address else .vNull
    additional_info := if truthy rest then rest else .vNull }

/-- The value `values[index]` seen by the row loop: the next value, or
undefined past the end of the split row. -/
def rowValue : List String → JsVal
  | [] => .vUndefined
  | x :: _ => .vStr x

/-- The headers.forEach body of the upload row loop, pairing the i-th
header with values[i]; a TypeError thrown by an assignment propagates
out of the loop (and is caught by the handler's try/catch, aborting the
run). -/
def buildRowAux (obj : JsObj) (headers values : List String) : Except JsError JsObj :=
  match headers with
  | [] => .ok obj
  | h :: hs =>
      match setNestedProperty obj h (rowValue values) with
      | .ok obj2 => buildRowAux obj2 hs (values.drop 1)
      | .error e => .error e

/-- One data line of the upload loop: fold every header/value pair into
a fresh row object. -/
def buildRow (headers values : List String) : Except JsError JsObj :=
  buildRowAux [] headers values

/-- One full data line: build the row object and, when no property
access threw, transform it for the database. -/
def processLine (headers values : List String) : Except JsError TargetRecord :=
  match buildRow headers values with
  | .ok obj => .ok (transformForDb obj)
  | .error e => .error e

/-- The batching loop of the upload handler: push each transformed row
onto the current batch, flush (emit) the batch once its length reaches
the batch size, and flush the final nonempty remainder after the loop.
Returns the flushed batches in order. -/
def driverLoop {α : Type} (rows : List α) (batch : List α) (batchCap : Nat) : List (List α) :=
  match rows with
  | [] => if batch.length > 0 then [batch] else []
  | r :: rs =>
      if batchCap ≤ (batch ++ [r]).length then (batch ++ [r]) :: driverLoop rs [] batchCap
      else driverLoop rs (batch ++ [r]) batchCap

/-- The batches the upload handler passes to insertDataBatch, in order. -/
def runBatches {α : Type} (rows : List α) (batchCap : Nat) : List (List α) :=
  driverLoop rows [] batchCap

/-- Length-level shadow of driverLoop: the sizes of the emitted batches
as a function of the number of remaining rows and the current batch
size. -/
def batchSizes : Nat → Nat → Nat → List Nat
  | 0, b, _ => if b > 0 then [b] else []
  | n + 1, b, batchCap =>
      if batchCap ≤ b + 1 then (b + 1) :: batchSizes n 0 batchCap
      else batchSizes n (b + 1) batchCap

/-- The error a failed multi-row INSERT raises inside insertDataBatch. -/
inductive DbError where
  | writeError : Nat → DbError
deriving Repr, DecidableEq

/-- Console-observable outcome of one insertDataBatch call. -/
inductive BatchLog where
  | skippedEmpty : BatchLog
  | insertedBatch : Nat → BatchLog
  | errorInsertingBatch : Nat → BatchLog
deriving Repr, DecidableEq

/-- The client.query call of insertDataBatch: one multi-row INSERT for
the whole batch, failing as a unit according to the failure pattern of
the store (indexed by batch number). -/
def clientQuery (failSet : Nat → Bool) (idx : Nat) (batch : List TargetRecord) : Except DbError Nat :=
  if failSet idx then .error (.writeError idx) else .ok batch.length

/-- insertDataBatch from src/index.js: return at once on an empty
batch; otherwise attempt the single multi-row INSERT, and catch a
failure (logging it) so that the function returns normally — it never
propagates a WriteError to its caller. -/
def insertDataBatch (failSet : Nat → Bool) (idx : Nat) (batch : List TargetRecord) : Except DbError BatchLog :=
  if batch.length = 0 then .ok .skippedEmpty
  else
    match clientQuery failSet idx batch with
    | .ok n => .ok (.insertedBatch n)
    | .error _ => .ok (.errorInsertingBatch idx)

/-- The driver's successive awaited writer calls: batches are attempted
in order, and an exception thrown by the writer aborts the remaining
batches (the upload handler's try/catch). -/
def processBatches (writer : Nat → List TargetRecord → Except DbError BatchLog) (idx : Nat)
    (batches : List (List TargetRecord)) : List BatchLog :=
  match batches with
  | [] => []
  | b :: bs =>
      match writer idx b with
      | .ok entry => entry :: processBatches writer (idx + 1) bs
      | .error _ => []

/-- Whether an embedded value is a JavaScript integer. -/
def isInt : JsVal → Bool
  | .vNum _ => true
  | _ => false

theorem driverLoop_flatten {α : Type} (batchCap : Nat) :
    ∀ (rows batch : List α), (driverLoop rows batch batchCap).flatten = batch ++ rows := by
  intro rows
  induction rows with
  | nil =>
      intro batch
      by_cases h : batch.length > 0
      · simp [driverLoop, h]
      · have hb : batch = [] := by
          simpa using List.length_eq_zero.mp (Nat.eq_zero_of_not_pos h)
        simp [driverLoop, hb]
  | cons r rs ih =>
      intro batch
      by_cases h : batchCap ≤ batch.length + 1
      · simp [driverLoop, h, ih]
      · simp [driverLoop, h, ih]

theorem driverLoop_map_length {α : Type} (batchCap : Nat) :
    ∀ (rows batch : List α),
      (driverLoop rows batch batchCap).map List.length = batchSizes rows.length batch.length batchCap := by
  intro rows
  induction rows with
  | nil =>
      intro batch
      by_cases h : batch.length > 0
      · simp [driverLoop, batchSizes, h]
      · simp [driverLoop, batchSizes, h]
  | cons r rs ih =>
      intro batch
      by_cases h : batchCap ≤ batch.length + 1
      · simp [driverLoop, batchSizes, h, ih]
      · simp [driverLoop, batchSizes, h, ih]

set_option maxRecDepth 100000 in
theorem batchSizes_2500 : batchSizes 2500 0 1000 = [1000, 1000, 500] := by decide

theorem insertDataBatch_result (failSet : Nat → Bool) (idx : Nat) (batch : List TargetRecord) :
    insertDataBatch failSet idx batch =
      .ok (if batch.length = 0 then .skippedEmpty
           else if failSet idx then .errorInsertingBatch idx else .insertedBatch batch.length) := by
  by_cases h0 : batch.length = 0
  · simp [insertDataBatch, h0]
  · by_cases hf : failSet idx
    · simp [insertDataBatch, clientQuery, h0, hf]
    · simp [insertDataBatch, clientQuery, h0, hf]

theorem processBatches_insertDataBatch_length (failSet : Nat → Bool) :
    ∀ (batches : List (List TargetRecord)) (idx : Nat),
      (processBatches (insertDataBatch failSet) idx batches).length = batches.length := by
  intro batches
  induction batches with
  | nil => intro idx; simp [processBatches]
  | cons b bs ih =>
      intro idx
      simp [processBatches, insertDataBatch_result, ih]

theorem truthy_ne_vNull {v : JsVal} (h : truthy v = true) : v ≠ JsVal.vNull := by
  intro hc
  rw [hc] at h
  simp [truthy] at h

theorem truthy_ne_vUndefined {v : JsVal} (h : truthy v = true) : v ≠ JsVal.vUndefined := by
  intro hc
  rw [hc] at h
  simp [truthy] at h

theorem buildRowAux_take :
    ∀ (headers : List String) (obj : JsObj) (values : List String),
      buildRowAux obj headers (values.take headers.length) = buildRowAux obj headers values := by
  intro headers
  induction headers with
  | nil => intro obj values; rfl
  | cons h hs ih =>
      intro obj values
      cases values with
      | nil => simp [buildRowAux]
      | cons x xs =>
          simp only [List.length_cons, List.take_succ_cons, buildRowAux, rowValue,
            List.drop_succ_cons, List.drop_zero]
          cases setNestedProperty obj h (JsVal.vStr x) with
          | ok o2 => exact ih o2 xs
          | error e => rfl

/-- C1: for a Raw Record whose top-level keys are all in the mapped set,
the code produces additional_info = the empty object (the rest-spread
object is always truthy, so the `or null` fallback never fires), not
null as the claim states. -/
theorem additional_info_empty_object_not_null :
    processLine ["name.firstName", "age", "address.city"] ["Ann", "34", "Paris"] =
      .ok { name := "Ann", age := JsVal.vNum 34,
            address := JsVal.vObj [("city", JsVal.vStr "Paris")],
            additional_info := JsVal.vObj [] } ∧
    JsVal.vObj [] ≠ JsVal.vNull := by
  refine ⟨rfl, ?_⟩
  simp

/-- C2 counterexample: a non-header line with fewer values than header
columns does not behave like empty-string values. The missing values
arrive as undefined, which setNestedProperty does not skip: it creates
the intermediate address node and stores undefined leaves, so address
is a non-null object and additional_info gains an undefined-valued
entry, unlike the genuine empty-string row. -/
theorem missing_trailing_values_not_absent_cex :
    buildRow ["name.firstName", "address.city", "hobby"] ["Ann"] =
      .ok [("name", JsVal.vObj [("firstName", JsVal.vStr "Ann")]),
           ("address", JsVal.vObj [("city", JsVal.vUndefined)]),
           ("hobby", JsVal.vUndefined)] ∧
    buildRow ["name.firstName", "address.city", "hobby"] ["Ann", "", ""] =
      .ok [("name", JsVal.vObj [("firstName", JsVal.vStr "Ann")])] ∧
    (transformForDb [("name", JsVal.vObj [("firstName", JsVal.vStr "Ann")]),
        ("address", JsVal.vObj [("city", JsVal.vUndefined)]),
        ("hobby", JsVal.vUndefined)]).address ≠ JsVal.vNull ∧
    (transformForDb [("name", JsVal.vObj [("firstName", JsVal.vStr "Ann")]),
        ("address", JsVal.vObj [("city", JsVal.vUndefined)]),
        ("hobby", JsVal.vUndefined)]).additional_info ≠ JsVal.vObj [] ∧
    (transformForDb [("name", JsVal.vObj [("firstName", JsVal.vStr "Ann")]),
        ("address", JsVal.vObj [("city", JsVal.vUndefined)]),
        ("hobby", JsVal.vUndefined)]).additional_info ≠ JsVal.vNull := by
  refine ⟨rfl, rfl, ?_, ?_, ?_⟩
  · show JsVal.vObj [("city", JsVal.vUndefined)] ≠ JsVal.vNull
    simp
  · show JsVal.vObj [("hobby", JsVal.vUndefined)] ≠ JsVal.vObj []
    simp
  · show JsVal.vObj [("hobby", JsVal.vUndefined)] ≠ JsVal.vNull
    simp

/-- C2 amended: a missing trailing value is passed to the assigner as
undefined, which is not skipped: intermediate nodes along the path are
still created and the final key is set to undefined. An absent address
leaf therefore yields a non-null address object with an undefined leaf,
and an absent unmapped column yields an undefined-valued entry in
additional_info; only top-level scalar defaults (age = 0, name = the
trimmed join) coincide with the empty-string behavior. -/
theorem missing_trailing_values_assign_undefined (f : String) :
    processLine ["name.firstName", "address.city", "hobby"] [f] =
      .ok { name := trimStr (f ++ " "), age := JsVal.vNum 0,
            address := JsVal.vObj [("city", JsVal.vUndefined)],
            additional_info := JsVal.vObj [("hobby", JsVal.vUndefined)] } := by
  by_cases hf : f = ""
  · subst hf
    rfl
  · simp [processLine, buildRow, buildRowAux, rowValue, setNestedProperty, isEmptyStr, hf,
      splitOnDot, splitCharsOnDot, walkSet, objGet, objSet, transformForDb, optChain,
      orEmptyStr, truthy, jsToString, Except.map]

/-- C3 counterexample: when the intermediate segment holding a truthy
non-mapping leaf is followed by the final segment, setNestedProperty
returns normally with the record unchanged — the assignment is silently
dropped, no MalformedRecordError (nor any error) is signalled; and when
the leaf is falsy (for instance undefined) it is silently overwritten
with a fresh mapping. Both refute the universal fail-fast claim. -/
theorem intermediate_leaf_silent_drop_cex :
    setNestedProperty [("a", JsVal.vStr "x")] "a.b" (JsVal.vStr "y") =
      .ok [("a", JsVal.vStr "x")] ∧
    setNestedProperty [("a", JsVal.vUndefined)] "a.b" (JsVal.vStr "y") =
      .ok [("a", JsVal.vObj [("b", JsVal.vStr "y")])] :=
  ⟨rfl, rfl⟩

/-- C3 amended: a truthy non-mapping intermediate leaf with exactly one
remaining segment makes assign a silent no-op (the record is returned
unchanged, the value dropped, nothing signalled); with two or more
remaining segments the sloppy-mode walk reaches undefined and the next
property access throws a TypeError (not a MalformedRecordError),
aborting the line with the record unchanged; a falsy intermediate leaf
is silently overwritten with a fresh mapping that receives the value. -/
theorem intermediate_leaf_silent_behavior (s y : String) (hs : s ≠ "") (hy : y ≠ "") :
    setNestedProperty [("a", JsVal.vStr s)] "a.b" (JsVal.vStr y) =
      .ok [("a", JsVal.vStr s)] ∧
    setNestedProperty [("a", JsVal.vStr s)] "a.b.c" (JsVal.vStr y) =
      .error JsError.typeError ∧
    setNestedProperty [("a", JsVal.vUndefined)] "a.b" (JsVal.vStr y) =
      .ok [("a", JsVal.vObj [("b", JsVal.vStr y)])] := by
  refine ⟨?_, ?_, ?_⟩
  · simp [setNestedProperty, isEmptyStr, hy, splitOnDot, splitCharsOnDot, walkSet, objGet,
      objSet, truthy, hs]
  · simp [setNestedProperty, isEmptyStr, hy, splitOnDot, splitCharsOnDot, walkSet, objGet,
      objSet, truthy, hs]
  · simp [setNestedProperty, isEmptyStr, hy, splitOnDot, splitCharsOnDot, walkSet, objGet,
      objSet, truthy, Except.map]

/-- C3 amended witness at the leaf x and the value y. -/
theorem intermediate_leaf_silent_behavior_witness :
    ("x" : String) ≠ "" ∧ ("y" : String) ≠ "" ∧
    (setNestedProperty [("a", JsVal.vStr "x")] "a.b" (JsVal.vStr "y") =
       .ok [("a", JsVal.vStr "x")] ∧
     setNestedProperty [("a", JsVal.vStr "x")] "a.b.c" (JsVal.vStr "y") =
       .error JsError.typeError ∧
     setNestedProperty [("a", JsVal.vUndefined)] "a.b" (JsVal.vStr "y") =
       .ok [("a", JsVal.vObj [("b", JsVal.vStr "y")])]) :=
  ⟨by decide, by decide, intermediate_leaf_silent_behavior "x" "y" (by decide) (by decide)⟩

/-- C4: assign for each header/value pair followed by transform maps the
example header and row to exactly the expected Target Record. -/
theorem assign_transform_round_trip :
    processLine ["name.firstName", "name.lastName", "age", "address.city", "hobby"]
        ["Ann", "Lee", "34", "Paris", "chess"] =
      .ok { name := "Ann Lee", age := JsVal.vNum 34,
            address := JsVal.vObj [("city", JsVal.vStr "Paris")],
            additional_info := JsVal.vObj [("hobby", JsVal.vStr "chess")] } :=
  rfl

/-- C5: with 2500 transformed rows and batch size 1000 the upload loop
issues exactly three writes of sizes 1000, 1000 and 500, and their
concatenation is the original row sequence in order (capacity-triggered
flushes plus one final partial flush). -/
theorem batching_2500_rows (rows : List TargetRecord) (h : rows.length = 2500) :
    (runBatches rows 1000).map List.length = [1000, 1000, 500] ∧
    (runBatches rows 1000).flatten = rows := by
  constructor
  · have h1 := driverLoop_map_length 1000 rows ([] : List TargetRecord)
    rw [runBatches, h1, h]
    exact batchSizes_2500
  · have h2 := driverLoop_flatten 1000 rows ([] : List TargetRecord)
    rw [runBatches, h2]
    simp

/-- C5 witness at a concrete list of 2500 rows. -/
theorem batching_2500_rows_witness :
    (List.replicate 2500 (transformForDb [])).length = 2500 ∧
    ((runBatches (List.replicate 2500 (transformForDb [])) 1000).map List.length =
        [1000, 1000, 500] ∧
     (runBatches (List.replicate 2500 (transformForDb [])) 1000).flatten =
        List.replicate 2500 (transformForDb [])) :=
  ⟨List.length_replicate 2500 (transformForDb []),
   batching_2500_rows (List.replicate 2500 (transformForDb []))
     (List.length_replicate 2500 (transformForDb []))⟩

theorem map_length_three {α : Type} (l : List (List α)) (a b c : Nat)
    (h : l.map List.length = [a, b, c]) :
    ∃ x y z, l = [x, y, z] ∧ x.length = a ∧ y.length = b ∧ z.length = c := by
  match l with
  | [] => simp at h
  | [x] => simp at h
  | [x, y] => simp at h
  | x :: y :: z :: rest =>
      simp at h
      obtain ⟨ha, hb, hc, hrest⟩ := h
      exact ⟨x, y, z, by simp [hrest], ha, hb, hc⟩

/-- C6: insertDataBatch catches its write error and returns normally,
so every batch is attempted whatever the failure pattern; in the
2500-row run a failure of the second batch still leaves three log
entries, the third being the successful 500-row insert. -/
theorem batch_failure_continues (failSet : Nat → Bool) (rows : List TargetRecord)
    (h : rows.length = 2500) :
    (processBatches (insertDataBatch failSet) 0 (runBatches rows 1000)).length = 3 ∧
    processBatches (insertDataBatch (fun i => i == 1)) 0 (runBatches rows 1000) =
      [BatchLog.insertedBatch 1000, BatchLog.errorInsertingBatch 1, BatchLog.insertedBatch 500] := by
  have hm : (runBatches rows 1000).map List.length = [1000, 1000, 500] := by
    have h1 := driverLoop_map_length 1000 rows ([] : List TargetRecord)
    rw [runBatches, h1, h]
    exact batchSizes_2500
  obtain ⟨b0, b1, b2, hr, h0, h1', h2'⟩ := map_length_three (runBatches rows 1000) 1000 1000 500 hm
  constructor
  · rw [hr]
    simp [processBatches, insertDataBatch_result]
  · rw [hr]
    simp [processBatches, insertDataBatch_result, h0, h1', h2']

/-- C6 witness at a concrete list of 2500 rows and the pattern failing
only the second batch. -/
theorem batch_failure_continues_witness :
    (List.replicate 2500 (transformForDb [])).length = 2500 ∧
    ((processBatches (insertDataBatch (fun i => i == 1)) 0
        (runBatches (List.replicate 2500 (transformForDb [])) 1000)).length = 3 ∧
     processBatches (insertDataBatch (fun i => i == 1)) 0
        (runBatches (List.replicate 2500 (transformForDb [])) 1000) =
       [BatchLog.insertedBatch 1000, BatchLog.errorInsertingBatch 1, BatchLog.insertedBatch 500]) :=
  ⟨List.length_replicate 2500 (transformForDb []),
   batch_failure_continues (fun i => i == 1) (List.replicate 2500 (transformForDb []))
     (List.length_replicate 2500 (transformForDb []))⟩

/-- C7: assigning the empty string is a complete no-op for every record
and path (the field is never set, to an empty string or anything else),
and the age header with an empty row value leaves age unset so that
transform defaults it to the integer 0. -/
theorem empty_string_assign_noop (obj : JsObj) (path : String) :
    setNestedProperty obj path (JsVal.vStr "") = .ok obj ∧
    buildRow ["age"] [""] = .ok [] ∧
    processLine ["age"] [""] =
      .ok { name := "", age := JsVal.vNum 0, address := JsVal.vNull,
            additional_info := JsVal.vObj [] } := by
  refine ⟨?_, rfl, rfl⟩
  simp [setNestedProperty, isEmptyStr]

/-- C8: for the reserved path age a non-empty raw value is stored as
parseInt(value, 10); a numeric value stores its integer, a non-numeric
one stores the NaN sentinel, which transform treats as absent and
defaults to the integer 0; any other single-segment path stores the raw
string unchanged. -/
theorem age_parse_and_default (v p : String) (hv : v ≠ "") (hp : p ≠ "age")
    (hps : splitOnDot p = [p]) :
    setNestedProperty [] "age" (JsVal.vStr v) = .ok [("age", parseInt10 v)] ∧
    parseInt10 "34" = JsVal.vNum 34 ∧
    parseInt10 "abc" = JsVal.vNaN ∧
    setNestedProperty [] "age" (JsVal.vStr "abc") = .ok [("age", JsVal.vNaN)] ∧
    (transformForDb [("age", JsVal.vNaN)]).age = JsVal.vNum 0 ∧
    setNestedProperty [] p (JsVal.vStr v) = .ok [(p, JsVal.vStr v)] := by
  refine ⟨?_, rfl, rfl, rfl, rfl, ?_⟩
  · simp [setNestedProperty, isEmptyStr, hv, splitOnDot, splitCharsOnDot, walkSet, objSet,
      truthy, jsToString]
  · simp [setNestedProperty, isEmptyStr, hv, hps, hp, walkSet, objSet, truthy]

/-- C8 witness at the value 7x and the path hobby. -/
theorem age_parse_and_default_witness :
    ("7x" : String) ≠ "" ∧ ("hobby" : String) ≠ "age" ∧ splitOnDot "hobby" = ["hobby"] ∧
    (setNestedProperty [] "age" (JsVal.vStr "7x") = .ok [("age", parseInt10 "7x")] ∧
     parseInt10 "34" = JsVal.vNum 34 ∧
     parseInt10 "abc" = JsVal.vNaN ∧
     setNestedProperty [] "age" (JsVal.vStr "abc") = .ok [("age", JsVal.vNaN)] ∧
     (transformForDb [("age", JsVal.vNaN)]).age = JsVal.vNum 0 ∧
     setNestedProperty [] "hobby" (JsVal.vStr "7x") = .ok [("hobby", JsVal.vStr "7x")]) :=
  ⟨by decide, by decide, rfl,
   age_parse_and_default "7x" "hobby" (by decide) (by decide) rfl⟩

/-- C9 counterexample: a Raw Record (a tree with raw-string leaves)
holding a non-empty string at the top-level age key produces a Target
Record whose age is that string, not an integer, because the code keeps
any truthy age value as-is. -/
theorem target_age_not_integer_cex :
    (transformForDb [("age", JsVal.vStr "abc")]).age = JsVal.vStr "abc" ∧
    isInt (transformForDb [("age", JsVal.vStr "abc")]).age = false :=
  ⟨rfl, rfl⟩

/-- C9 amended: for every Raw Record the Target Record has a (string)
name equal to the trimmed space-join of the optional firstName and
lastName, and an age that is never null or undefined: the stored age
value when that is truthy, the integer 0 otherwise; the age is an
integer exactly when the stored age is an integer or is falsy.
Transform is a pure function of the record in this embedding. -/
theorem transform_invariants_amended (obj : JsObj) :
    (transformForDb obj).age =
      (if truthy (objGet obj "age") then objGet obj "age" else JsVal.vNum 0) ∧
    (transformForDb obj).age ≠ JsVal.vNull ∧
    (transformForDb obj).age ≠ JsVal.vUndefined ∧
    isInt (transformForDb obj).age = (isInt (objGet obj "age") || !truthy (objGet obj "age")) ∧
    (transformForDb obj).name =
      trimStr (orEmptyStr (optChain (objGet obj "name") "firstName") ++ " " ++
        orEmptyStr (optChain (objGet obj "name") "lastName")) := by
  have hage : (transformForDb obj).age =
      (if truthy (objGet obj "age") then objGet obj "age" else JsVal.vNum 0) := rfl
  refine ⟨hage, ?_, ?_, ?_, rfl⟩
  · rw [hage]
    by_cases h : truthy (objGet obj "age") = true
    · simpa [h] using truthy_ne_vNull h
    · simp [h]
  · rw [hage]
    by_cases h : truthy (objGet obj "age") = true
    · simpa [h] using truthy_ne_vUndefined h
    · simp [h]
  · rw [hage]
    by_cases h : truthy (objGet obj "age") = true
    · simp [h]
    · simp [h, isInt]

/-- C10: the row loop pairs values with headers by index and never reads
past the header count, so extra trailing values are ignored: the Raw
Record, and hence the Target Record, built from a long row equals the
one built from its first header-count values. -/
theorem extra_values_ignored (headers values : List String) :
    buildRow headers values = buildRow headers (values.take headers.length) ∧
    processLine headers values = processLine headers (values.take headers.length) := by
  have h := buildRowAux_take headers [] values
  refine ⟨h.symm, ?_⟩
  unfold processLine buildRow
  rw [h]
